import Mathlib

/-!
# Verification of the KosmosX-API request authorization and metering pipeline

Shallow embedding of `src/api.py`: the credential-store-backed endpoints
(`get_api_key`, `register`, `rotate_api_key`, `delete_account`), the usage
metering helper (`count_tokens`), the `/checkout/` endpoint, the `/completion`
endpoint body, and the per-address rate limiter guarding `/completion`.

External collaborators (Supabase credential store, bcrypt, slowapi limiter,
Stripe, the model wrapper) are modelled abstractly, following the spec's
contracts for them, since their code is not part of this repository.
-/

namespace KosmosX

/-- An HTTP error as raised by `HTTPException(status_code=..., detail=...)`. -/
structure HTTPError where
  status : Nat
  detail : String
deriving DecidableEq, Repr

/-- Modelled from the spec: bcrypt's salted one-way password hash (external
library `bcrypt`).  The hash is an opaque value from which `checkpw` can
verify a password; we model it as a structure pairing the salt with the
hashed password's preimage, never inspected except by `checkpw`. -/
structure PasswordHash where
  salt : String
  pw : String
deriving DecidableEq, Repr

/-- Modelled from the spec: `bcrypt.hashpw(password, salt)`. -/
def hashpw (password salt : String) : PasswordHash :=
  ⟨salt, password⟩

/-- Modelled from the spec: `bcrypt.checkpw(password, stored_hash)` succeeds
exactly when the password matches the one the stored hash was made from. -/
def checkpw (password : String) (h : PasswordHash) : Bool :=
  password == h.pw

/-- A row of the `users` table in the Credential Store:
`{username, password, api_key}` as inserted by `register`. -/
structure User where
  username : String
  password : PasswordHash
  api_key : String
deriving DecidableEq, Repr

/-- The Credential Store's `users` table (external collaborator; modelled as
the list of rows, queried and mutated by the gateway's Supabase calls). -/
abbrev Store := List User

/-- `supabase.table('users').select(...).eq('api_key', k).single().get('data', None)`:
the single row whose `api_key` equals `k`, or `None`. -/
def lookupByKey (s : Store) (k : String) : Option User :=
  s.find? (fun u => u.api_key == k)

/-- `supabase.table('users').select('*').eq('username', u).single().get('data', None)`:
the single row whose `username` equals `u`, or `None`. -/
def findUser (s : Store) (u : String) : Option User :=
  s.find? (fun x => x.username == u)

/-- `async def get_api_key(api_key_header)` (src/api.py lines 72-78):
look the presented key up in the Credential Store; return the key unchanged
if a row is found, else raise `HTTPException(403, "Invalid API Key")`. -/
def get_api_key (s : Store) (api_key_header : String) : Except HTTPError String :=
  match lookupByKey s api_key_header with
  | none => .error ⟨403, "Invalid API Key"⟩
  | some _ => .ok api_key_header

/-- Python's `str.split(sep)` generalized to a delimiter predicate: cut the
character list at every character satisfying `p`, keeping empty segments, so
the empty string yields the single segment `[]`.  With `p = (· == sep)` this
is exactly Python's `text.split(sep)` for a one-character separator. -/
def splitWhen (p : Char → Bool) : List Char → List (List Char)
  | [] => [[]]
  | c :: cs =>
    match splitWhen p cs with
    | [] => if p c then [[], []] else [[c]]
    | w :: ws => if p c then [] :: w :: ws else (c :: w) :: ws

/-- `async def count_tokens(text)` (src/api.py lines 58-60):
`len(text.split(" "))`.  Python's `str.split(" ")` cuts at each single space
character, keeping empty segments (the empty string yields one empty
segment), which `splitWhen (· == ' ')` on the character list mirrors. -/
def count_tokens (text : String) : Nat :=
  (splitWhen (· == ' ') text.data).length

/-- The number of whitespace-delimited tokens of a string, as the claim about
`count_tokens` states it: segments obtained by cutting at every whitespace
character (keeping empty tokens, so that `""` still yields the one empty
token the claim notes). -/
def whitespaceTokenCount (text : String) : Nat :=
  (splitWhen Char.isWhitespace text.data).length

/-- `async def register(username, password)` (src/api.py lines 137-142):
hash the password with a fresh salt, generate a fresh `api_key`
(`str(uuid.uuid4())`, modelled as the parameter `freshKey`), insert the row,
and return the new key as `{'api_key': api_key}`. -/
def register (s : Store) (username password : String) (salt freshKey : String) :
    String × Store :=
  let hashed_password := hashpw password salt
  (freshKey, s ++ [⟨username, hashed_password, freshKey⟩])

/-- `supabase.table('users').update({'api_key': k}).eq('username', u).execute()`:
set the `api_key` of every row whose `username` is `u`. -/
def updateApiKey (s : Store) (u k : String) : Store :=
  s.map (fun x => if x.username == u then { x with api_key := k } else x)

/-- `supabase.table('users').delete().eq('username', u).execute()`:
remove every row whose `username` is `u`. -/
def deleteUser (s : Store) (u : String) : Store :=
  s.filter (fun x => !(x.username == u))

/-- `async def rotate_api_key(username, password)` (src/api.py lines 145-155):
look the user up by username; if found and the password checks against the
stored hash, store a fresh key (`str(uuid.uuid4())`, modelled as the
parameter `freshKey`) and return it; otherwise raise
`HTTPException(403, "Invalid username or password")`.  The resulting
Credential Store is returned alongside the response. -/
def rotate_api_key (s : Store) (username password : String) (freshKey : String) :
    Except HTTPError String × Store :=
  match findUser s username with
  | some user =>
    if checkpw password user.password then
      (.ok freshKey, updateApiKey s username freshKey)
    else
      (.error ⟨403, "Invalid username or password"⟩, s)
  | none => (.error ⟨403, "Invalid username or password"⟩, s)

/-- `async def delete_account(username, password)` (src/api.py lines 158-166):
look the user up by username; if found and the password checks, delete the
row and return `{'detail': 'Account deleted'}`; otherwise raise
`HTTPException(403, "Invalid username or password")`. -/
def delete_account (s : Store) (username password : String) :
    Except HTTPError String × Store :=
  match findUser s username with
  | some user =>
    if checkpw password user.password then
      (.ok "Account deleted", deleteUser s username)
    else
      (.error ⟨403, "Invalid username or password"⟩, s)
  | none => (.error ⟨403, "Invalid username or password"⟩, s)

/-- The body of a `/checkout/` HTTP response: either the JSON object
`{'id': checkout_session.id}` or, on the exception path, the raw string
`str(e)` returned directly. -/
inductive CheckoutBody where
  | idObj (id : String)
  | raw (s : String)
deriving DecidableEq, Repr

/-- An HTTP response as sent by the `/checkout/` endpoint (FastAPI wraps a
plain returned value in a 200 response). -/
structure CheckoutResponse where
  status : Nat
  body : CheckoutBody
deriving DecidableEq, Repr

/-- `async def create_checkout_session(user_id)` (src/api.py lines 82-107).
`get_usage_from_database` and `calculate_cost` are called but defined nowhere
in the repository; modelled from the spec: `get_usage_from_database` maps the
user to a usage measurement and `calculate_cost` maps usage to an integer
minor-unit amount (both external/unimplemented, §4.4).  The Stripe call
`stripe.checkout.Session.create(... unit_amount=cost ...)` is the external
payment provider, modelled as the function `stripeCreate` from the computed
cost to either a session id or an error message (the raised exception's
text).  On success the endpoint returns `{'id': checkout_session.id}`; on a
provider exception it returns `str(e)` as a plain value, which FastAPI sends
with status 200. -/
def create_checkout_session (user_id : String)
    (get_usage_from_database : String → Nat) (calculate_cost : Nat → Nat)
    (stripeCreate : Nat → Except String String) : CheckoutResponse :=
  let usage := get_usage_from_database user_id
  let cost := calculate_cost usage
  match stripeCreate cost with
  | .ok sessionId => ⟨200, .idObj sessionId⟩
  | .error e => ⟨200, .raw e⟩

/-- `text_data = query.text if query.text else None` (src/api.py line 122):
Python truthiness maps both an absent text and the empty string to `None`. -/
def textData (text : Option String) : Option String :=
  match text with
  | some s => if s == "" then none else some s
  | none => none

/-- The transient request payload `Query` (src/api.py lines 40-46).  The two
float sampling parameters are forwarded untouched, so they are modelled by an
arbitrary opaque type `F` at each use site; here they are fixed as opaque
strings to keep the structure decidable. -/
structure Query where
  text : Option String := none
  description_type : Option String := none
  enable_sampling : Option Bool := none
  sampling_topp : Option String := none
  sampling_temperature : Option String := none
deriving DecidableEq, Repr

/-- `async def completion(query, image, api_key)`, the `try` block
(src/api.py lines 114-133): read and decode the uploaded image if present
(`Image.open(io.BytesIO(...))`, modelled as the external function `decode`
from the raw bytes to a decoded bitmap or an exception message), compute
`text_data`, call `model.get_response(...)` (the external Inference Engine,
modelled as `get_response` returning a response string or an exception
message), and return `{"response": response}`; any exception `e` raised in
the block is converted to `HTTPException(500, str(e))`. -/
def completionBody (imageBytes : Option String)
    (decode : String → Except String String) (query : Query)
    (get_response : Option String → Option String → Option Bool →
      Option String → Option String → Option String → Except String String) :
    Except HTTPError String :=
  let decoded : Except String (Option String) :=
    match imageBytes with
    | some b =>
      match decode b with
      | .ok img => .ok (some img)
      | .error e => .error e
    | none => .ok none
  match decoded with
  | .error e => .error ⟨500, e⟩
  | .ok image_data =>
    match get_response (textData query.text) query.description_type
        query.enable_sampling query.sampling_topp query.sampling_temperature
        image_data with
    | .error e => .error ⟨500, e⟩
    | .ok response => .ok response

/-- The Rate Limiter's process-local state for one client address: the
timestamps (in seconds) of previously served `/completion` requests from
that address.  Modelled from the spec (§4.3): the `slowapi` limiter attached
by `@limiter.limit("5/minute")` keyed by `get_remote_address` is an external
library; the spec specifies a rolling 60-second window admitting at most 5
requests, rejecting the rest before the handler runs. -/
abbrev LimiterHits := List (String × Nat)

/-- The number of served requests from address `a` whose timestamp falls in
the rolling 60-second window ending at time `t`. -/
def recentHits (hits : LimiterHits) (a : String) (t : Nat) : Nat :=
  (hits.filter (fun h => h.1 == a && h.2 ≤ t && t - h.2 < 60)).length

/-- One `/completion` request from address `a` at time `t` passing through
the rate limiter: if the address already has 5 served requests in the
rolling window the request fails fast with the 429 rate-limit error and the
handler result `handlerResult` is never consulted; otherwise the handler's
response is returned and the hit is recorded. -/
def rateLimitedCompletion (hits : LimiterHits) (a : String) (t : Nat)
    (handlerResult : Except HTTPError String) :
    Except HTTPError String × LimiterHits :=
  if recentHits hits a t < 5 then
    (handlerResult, (a, t) :: hits)
  else
    (.error ⟨429, "Rate limit exceeded: 5 per 1 minute"⟩, hits)

/-- Process a sequence of `/completion` requests through the rate limiter in
order, starting from the given limiter state: each element carries the
client address, the arrival time and the response the Router logic would
produce for that payload; the output lists the responses actually sent. -/
def runCompletions (hits : LimiterHits) :
    List (String × Nat × Except HTTPError String) → List (Except HTTPError String)
  | [] => []
  | (a, t, r) :: rest =>
    let p := rateLimitedCompletion hits a t r
    p.1 :: runCompletions p.2 rest

/-! ## Helper lemmas -/

/-- `splitWhen` yields one more segment than there are delimiter characters. -/
theorem splitWhen_length (p : Char → Bool) (l : List Char) :
    (splitWhen p l).length = l.countP p + 1 := by
  induction l with
  | nil => simp [splitWhen]
  | cons c cs ih =>
    rw [splitWhen]
    cases hs : splitWhen p cs with
    | nil => rw [hs] at ih; simp at ih
    | cons w ws =>
      rw [hs] at ih
      simp only [List.length_cons] at ih
      by_cases hc : p c = true
      · simp [hc, List.countP_cons]
        omega
      · simp [hc, List.countP_cons]
        omega

/-- The rolling-window hit count never exceeds the number of recorded hits. -/
theorem recentHits_le (hits : LimiterHits) (a : String) (t : Nat) :
    recentHits hits a t ≤ hits.length :=
  List.length_filter_le _ _

/-- When every recorded hit is from address `a` and inside the window ending
at `t`, the rolling-window count is the full number of hits. -/
theorem recentHits_eq_length (hits : LimiterHits) (a : String) (t : Nat)
    (h : ∀ x ∈ hits, x.1 = a ∧ x.2 ≤ t ∧ t - x.2 < 60) :
    recentHits hits a t = hits.length := by
  rw [recentHits, List.filter_eq_self.mpr]
  intro x hx
  obtain ⟨h1, h2, h3⟩ := h x hx
  simp [h1, h2, h3]

/-- A request is served whenever fewer than five hits are recorded at all. -/
theorem rateLimited_serve (hits : LimiterHits) (a : String) (t : Nat)
    (r : Except HTTPError String) (h : hits.length < 5) :
    rateLimitedCompletion hits a t r = (r, (a, t) :: hits) := by
  rw [rateLimitedCompletion, if_pos (lt_of_le_of_lt (recentHits_le hits a t) h)]

/-- A key carried by some row of the store is accepted by `get_api_key`. -/
theorem get_api_key_ok_of_mem (s : Store) (k : String) (u : User)
    (hu : u ∈ s) (hk : u.api_key = k) : get_api_key s k = .ok k := by
  have hsome : (lookupByKey s k).isSome := by
    rw [lookupByKey, List.find?_isSome]
    exact ⟨u, hu, by simp [hk]⟩
  cases h : lookupByKey s k with
  | none => rw [h] at hsome; simp at hsome
  | some u' => simp [get_api_key, h]

/-- A key carried by no row of the store is rejected with 403. -/
theorem get_api_key_err_of_absent (s : Store) (k : String)
    (h : ∀ u ∈ s, u.api_key ≠ k) :
    get_api_key s k = .error ⟨403, "Invalid API Key"⟩ := by
  have hnone : lookupByKey s k = none := by
    rw [lookupByKey, List.find?_eq_none]
    intro u hu
    simp [h u hu]
  simp [get_api_key, hnone]

/-! ## Claim theorems -/

/-- Claim C1: for every API key presented to `get_api_key`, if the key is
present in the Credential Store the endpoint returns exactly that key
unchanged, and if it is absent it fails with HTTP status 403. -/
theorem get_api_key_found_or_403 (s : Store) (k : String) :
    ((∃ u ∈ s, u.api_key = k) → get_api_key s k = .ok k) ∧
    ((∀ u ∈ s, u.api_key ≠ k) → get_api_key s k = .error ⟨403, "Invalid API Key"⟩) := by
  refine ⟨fun ⟨u, hu, hk⟩ => get_api_key_ok_of_mem s k u hu hk,
    fun habs => get_api_key_err_of_absent s k habs⟩

/-- Witness for C1 on a one-user store: the stored key is returned unchanged
and an absent key is rejected with 403. -/
theorem get_api_key_found_or_403_witness :
    get_api_key [⟨"alice", ⟨"s1", "pw1"⟩, "key-a"⟩] "key-a" = .ok "key-a" ∧
    get_api_key [⟨"alice", ⟨"s1", "pw1"⟩, "key-a"⟩] "key-b" =
      .error ⟨403, "Invalid API Key"⟩ :=
  ⟨(get_api_key_found_or_403 [⟨"alice", ⟨"s1", "pw1"⟩, "key-a"⟩] "key-a").1
      ⟨⟨"alice", ⟨"s1", "pw1"⟩, "key-a"⟩, by decide, rfl⟩,
    (get_api_key_found_or_403 [⟨"alice", ⟨"s1", "pw1"⟩, "key-a"⟩] "key-b").2
      (by decide)⟩

/-- Claim C6, counterexample: `count_tokens` does not return the number of
whitespace-delimited words: on `"a\tb"` the tab is a whitespace delimiter
(two tokens) but the code splits only on the space character and returns 1. -/
theorem count_tokens_whitespace_counterexample :
    count_tokens "a\tb" = 1 ∧ whitespaceTokenCount "a\tb" = 2 ∧
    count_tokens "a\tb" ≠ whitespaceTokenCount "a\tb" := by
  refine ⟨by decide, by decide, by decide⟩

/-- Claim C6, amended: `count_tokens(text)` returns the number of
single-space-delimited segments of `text`, i.e. the number of space
characters plus one (only `' '` is a delimiter, not other whitespace); in
particular `count_tokens "a b c" = 3` and `count_tokens "" = 1`. -/
theorem count_tokens_space_segments :
    (∀ text : String, count_tokens text = text.data.count ' ' + 1) ∧
    count_tokens "a b c" = 3 ∧ count_tokens "" = 1 := by
  refine ⟨fun text => ?_, by decide, by decide⟩
  rw [count_tokens, splitWhen_length, List.count]

/-- Claim C4: `create_checkout_session` returns `{'id': session_id}` on
success, and on any payment-provider error it returns the error's text as
the response body with HTTP status 200 rather than an error status. -/
theorem create_checkout_session_status (user_id : String)
    (get_usage_from_database : String → Nat) (calculate_cost : Nat → Nat)
    (stripeCreate : Nat → Except String String) :
    (∀ sessionId,
      stripeCreate (calculate_cost (get_usage_from_database user_id)) = .ok sessionId →
      create_checkout_session user_id get_usage_from_database calculate_cost
        stripeCreate = ⟨200, .idObj sessionId⟩) ∧
    (∀ e,
      stripeCreate (calculate_cost (get_usage_from_database user_id)) = .error e →
      create_checkout_session user_id get_usage_from_database calculate_cost
        stripeCreate = ⟨200, .raw e⟩) := by
  constructor
  · intro sessionId h
    simp [create_checkout_session, h]
  · intro e h
    simp [create_checkout_session, h]

/-- Witness for C4: a succeeding provider yields `{'id': ...}` with 200, a
failing provider yields the raw error text also with 200. -/
theorem create_checkout_session_status_witness :
    create_checkout_session "u1" (fun _ => 7) (fun n => n * 2)
      (fun _ => .ok "cs_123") = ⟨200, .idObj "cs_123"⟩ ∧
    create_checkout_session "u1" (fun _ => 7) (fun n => n * 2)
      (fun _ => .error "card declined") = ⟨200, .raw "card declined"⟩ :=
  ⟨(create_checkout_session_status "u1" (fun _ => 7) (fun n => n * 2)
      (fun _ => .ok "cs_123")).1 "cs_123" rfl,
    (create_checkout_session_status "u1" (fun _ => 7) (fun n => n * 2)
      (fun _ => .error "card declined")).2 "card declined" rfl⟩

/-- Claim C10: a `/completion` request whose `query.text` is the empty
string forwards `None` to the Inference Engine, identically to a request
where text was omitted: the two runs are equal for every decoder, engine and
image payload. -/
theorem completion_empty_text_is_none :
    textData (some "") = none ∧
    ∀ (imageBytes : Option String) (decode : String → Except String String)
      (dt : Option String) (es : Option Bool) (tp temp : Option String)
      (get_response : Option String → Option String → Option Bool →
        Option String → Option String → Option String → Except String String),
      completionBody imageBytes decode ⟨some "", dt, es, tp, temp⟩ get_response =
        completionBody imageBytes decode ⟨none, dt, es, tp, temp⟩ get_response := by
  exact ⟨rfl, fun _ _ _ _ _ _ _ => rfl⟩

/-- Claim C2: for any client address issuing six `/completion` requests
within a 60-second window, the first five are served but the sixth fails
with the rate-limit error before reaching the handler logic — whatever
response the handler would have produced for its payload — so at most five
requests per minute from that address are served. -/
theorem completion_rate_limit_six (a : String) (t1 t2 t3 t4 t5 t6 : Nat)
    (r1 r2 r3 r4 r5 r6 : Except HTTPError String)
    (h12 : t1 ≤ t2) (h23 : t2 ≤ t3) (h34 : t3 ≤ t4) (h45 : t4 ≤ t5)
    (h56 : t5 ≤ t6) (hspan : t6 - t1 < 60) :
    runCompletions []
      [(a, t1, r1), (a, t2, r2), (a, t3, r3), (a, t4, r4), (a, t5, r5), (a, t6, r6)] =
      [r1, r2, r3, r4, r5, .error ⟨429, "Rate limit exceeded: 5 per 1 minute"⟩] := by
  have e1 : rateLimitedCompletion [] a t1 r1 = (r1, [(a, t1)]) :=
    rateLimited_serve _ _ _ _ (by simp)
  have e2 : rateLimitedCompletion [(a, t1)] a t2 r2 = (r2, [(a, t2), (a, t1)]) :=
    rateLimited_serve _ _ _ _ (by simp)
  have e3 : rateLimitedCompletion [(a, t2), (a, t1)] a t3 r3 =
      (r3, [(a, t3), (a, t2), (a, t1)]) :=
    rateLimited_serve _ _ _ _ (by simp)
  have e4 : rateLimitedCompletion [(a, t3), (a, t2), (a, t1)] a t4 r4 =
      (r4, [(a, t4), (a, t3), (a, t2), (a, t1)]) :=
    rateLimited_serve _ _ _ _ (by simp)
  have e5 : rateLimitedCompletion [(a, t4), (a, t3), (a, t2), (a, t1)] a t5 r5 =
      (r5, [(a, t5), (a, t4), (a, t3), (a, t2), (a, t1)]) :=
    rateLimited_serve _ _ _ _ (by simp)
  have hcount : recentHits [(a, t5), (a, t4), (a, t3), (a, t2), (a, t1)] a t6 = 5 := by
    rw [recentHits_eq_length]
    · rfl
    · intro x hx
      simp only [List.mem_cons, List.not_mem_nil, or_false] at hx
      rcases hx with h | h | h | h | h <;> subst h <;>
        exact ⟨rfl, by omega, by omega⟩
  have e6 : rateLimitedCompletion [(a, t5), (a, t4), (a, t3), (a, t2), (a, t1)] a t6 r6 =
      (.error ⟨429, "Rate limit exceeded: 5 per 1 minute"⟩,
        [(a, t5), (a, t4), (a, t3), (a, t2), (a, t1)]) := by
    rw [rateLimitedCompletion, hcount, if_neg (by omega)]
  simp only [runCompletions, e1, e2, e3, e4, e5, e6]

/-- Witness for C2: six requests from one address at seconds 0..5; the first
five handler responses go through, the sixth request gets the 429 error. -/
theorem completion_rate_limit_six_witness :
    runCompletions []
      [("10.0.0.1", 0, .ok "one"), ("10.0.0.1", 1, .ok "two"),
        ("10.0.0.1", 2, .ok "three"), ("10.0.0.1", 3, .ok "four"),
        ("10.0.0.1", 4, .ok "five"), ("10.0.0.1", 5, .ok "six")] =
      [.ok "one", .ok "two", .ok "three", .ok "four", .ok "five",
        .error ⟨429, "Rate limit exceeded: 5 per 1 minute"⟩] :=
  completion_rate_limit_six "10.0.0.1" 0 1 2 3 4 5
    (.ok "one") (.ok "two") (.ok "three") (.ok "four") (.ok "five") (.ok "six")
    (by decide) (by decide) (by decide) (by decide) (by decide) (by decide)

/-- Claim C3: whenever image decoding or model inference raises, the
`/completion` response is HTTP 500 carrying the exception's message
verbatim; the decode-failure and model-failure responses have the same
shape `.error ⟨500, m⟩` and are not distinguished. -/
theorem completion_500_verbatim (b : String)
    (decode : String → Except String String) (q : Query)
    (get_response : Option String → Option String → Option Bool →
      Option String → Option String → Option String → Except String String)
    (m : String) :
    (decode b = .error m →
      completionBody (some b) decode q get_response = .error ⟨500, m⟩) ∧
    (∀ img, decode b = .ok img →
      get_response (textData q.text) q.description_type q.enable_sampling
        q.sampling_topp q.sampling_temperature (some img) = .error m →
      completionBody (some b) decode q get_response = .error ⟨500, m⟩) ∧
    (get_response (textData q.text) q.description_type q.enable_sampling
        q.sampling_topp q.sampling_temperature none = .error m →
      completionBody none decode q get_response = .error ⟨500, m⟩) := by
  refine ⟨fun h => ?_, fun img h1 h2 => ?_, fun h => ?_⟩
  · simp [completionBody, h]
  · simp [completionBody, h1, h2]
  · simp [completionBody, h]

/-- Witness for C3: a failing decoder and a failing model each turn into a
500 whose detail is the exception message, with or without an image. -/
theorem completion_500_verbatim_witness :
    completionBody (some "bytes") (fun _ => .error "bad image")
      ⟨none, none, none, none, none⟩ (fun _ _ _ _ _ _ => .ok "resp") =
      .error ⟨500, "bad image"⟩ ∧
    completionBody (some "bytes") (fun _ => .ok "bitmap")
      ⟨none, none, none, none, none⟩ (fun _ _ _ _ _ _ => .error "model down") =
      .error ⟨500, "model down"⟩ ∧
    completionBody none (fun _ => .ok "bitmap")
      ⟨none, none, none, none, none⟩ (fun _ _ _ _ _ _ => .error "model down") =
      .error ⟨500, "model down"⟩ :=
  ⟨(completion_500_verbatim "bytes" (fun _ => .error "bad image")
      ⟨none, none, none, none, none⟩ (fun _ _ _ _ _ _ => .ok "resp")
      "bad image").1 rfl,
    (completion_500_verbatim "bytes" (fun _ => .ok "bitmap")
      ⟨none, none, none, none, none⟩ (fun _ _ _ _ _ _ => .error "model down")
      "model down").2.1 "bitmap" rfl rfl,
    (completion_500_verbatim "bytes" (fun _ => .ok "bitmap")
      ⟨none, none, none, none, none⟩ (fun _ _ _ _ _ _ => .error "model down")
      "model down").2.2 rfl⟩

/-- Claim C5: a successful key rotation for a user holding key `k` (password
checks out; `k` identifies only that user, per the store's uniqueness
invariant; the fresh key differs from `k`) returns a new key `k'`,
invalidates `k` — a subsequent `get_api_key` lookup with `k`, as performed
by `/completion`'s auth dependency, fails with 403 — and `k'` is accepted. -/
theorem rotate_api_key_invalidates_old (s : Store) (u p k' : String) (r : User)
    (hfind : findUser s u = some r)
    (hpw : checkpw p r.password = true)
    (huniq : ∀ x ∈ s, x.api_key = r.api_key → x.username = u)
    (hfresh : k' ≠ r.api_key) :
    (rotate_api_key s u p k').1 = .ok k' ∧
    get_api_key (rotate_api_key s u p k').2 r.api_key =
      .error ⟨403, "Invalid API Key"⟩ ∧
    get_api_key (rotate_api_key s u p k').2 k' = .ok k' := by
  have hrot : rotate_api_key s u p k' = (.ok k', updateApiKey s u k') := by
    simp only [rotate_api_key, hfind]
    rw [if_pos hpw]
  rw [hrot]
  have hfind' : s.find? (fun x => x.username == u) = some r := hfind
  have hru : (r.username == u) = true := by
    have hp := List.find?_some hfind'
    simpa using hp
  refine ⟨rfl, ?_, ?_⟩
  · refine get_api_key_err_of_absent _ _ ?_
    intro x hx
    rw [updateApiKey, List.mem_map] at hx
    obtain ⟨y, hy, hxy⟩ := hx
    subst hxy
    by_cases hyu : (y.username == u) = true
    · rw [if_pos hyu]
      exact hfresh
    · rw [if_neg hyu]
      intro heq
      exact hyu (by simp [huniq y hy heq])
  · have hmem : ({ r with api_key := k' } : User) ∈ updateApiKey s u k' := by
      rw [updateApiKey, List.mem_map]
      exact ⟨r, List.mem_of_find?_eq_some hfind', by rw [if_pos hru]⟩
    exact get_api_key_ok_of_mem _ _ _ hmem rfl

/-- Witness for C5: rotating alice's key from `k0` to `k1` returns `k1`,
rejects a lookup with `k0`, and accepts a lookup with `k1`. -/
theorem rotate_api_key_invalidates_old_witness :
    (rotate_api_key [⟨"alice", ⟨"s1", "pw1"⟩, "k0"⟩] "alice" "pw1" "k1").1 =
      .ok "k1" ∧
    get_api_key (rotate_api_key [⟨"alice", ⟨"s1", "pw1"⟩, "k0"⟩]
        "alice" "pw1" "k1").2 "k0" = .error ⟨403, "Invalid API Key"⟩ ∧
    get_api_key (rotate_api_key [⟨"alice", ⟨"s1", "pw1"⟩, "k0"⟩]
        "alice" "pw1" "k1").2 "k1" = .ok "k1" :=
  rotate_api_key_invalidates_old [⟨"alice", ⟨"s1", "pw1"⟩, "k0"⟩]
    "alice" "pw1" "k1" ⟨"alice", ⟨"s1", "pw1"⟩, "k0"⟩
    (by decide) (by decide) (by decide) (by decide)

/-- Claim C7: `register` inserts a User record carrying the freshly
generated api_key and returns that key, which is immediately active: a
`get_api_key` lookup with it (as `/completion`'s auth dependency performs)
succeeds with no intervening mutation. -/
theorem register_key_immediately_active (s : Store) (u p salt k : String) :
    (register s u p salt k).1 = k ∧
    (⟨u, hashpw p salt, k⟩ : User) ∈ (register s u p salt k).2 ∧
    get_api_key (register s u p salt k).2 k = .ok k := by
  have hmem : (⟨u, hashpw p salt, k⟩ : User) ∈ (register s u p salt k).2 := by
    simp [register]
  exact ⟨rfl, hmem, get_api_key_ok_of_mem _ _ _ hmem rfl⟩

/-- Claim C8: any two failing `rotate_api_key` runs — one where the user is
not found, one where the user is found but the password mismatches — produce
identical responses: the same 403 with the same generic message, so the two
failure causes are indistinguishable from the response. -/
theorem rotate_api_key_failure_uniform (s1 : Store) (u1 p1 k1 : String)
    (s2 : Store) (u2 p2 k2 : String) (r : User)
    (h1 : findUser s1 u1 = none)
    (h2 : findUser s2 u2 = some r)
    (hpw : checkpw p2 r.password = false) :
    (rotate_api_key s1 u1 p1 k1).1 = (rotate_api_key s2 u2 p2 k2).1 ∧
    (rotate_api_key s1 u1 p1 k1).1 =
      .error ⟨403, "Invalid username or password"⟩ := by
  constructor <;> simp [rotate_api_key, h1, h2, hpw]

/-- Witness for C8: an unknown-user failure and a wrong-password failure
give byte-identical responses. -/
theorem rotate_api_key_failure_uniform_witness :
    (rotate_api_key [] "alice" "pw1" "k1").1 =
      (rotate_api_key [⟨"alice", ⟨"s1", "pw1"⟩, "k0"⟩] "alice" "wrong" "k2").1 ∧
    (rotate_api_key [] "alice" "pw1" "k1").1 =
      .error ⟨403, "Invalid username or password"⟩ :=
  rotate_api_key_failure_uniform [] "alice" "pw1" "k1"
    [⟨"alice", ⟨"s1", "pw1"⟩, "k0"⟩] "alice" "wrong" "k2"
    ⟨"alice", ⟨"s1", "pw1"⟩, "k0"⟩ (by decide) (by decide) (by decide)

/-- Claim C9: when `rotate_api_key` or `delete_account` fails with 403
(user not found or password mismatch), the Credential Store is left exactly
as it was: no update, delete, or insert happens on the failure path. -/
theorem failure_leaves_store_unchanged (s : Store) (u p k : String)
    (e1 e2 : HTTPError) :
    ((rotate_api_key s u p k).1 = .error e1 → (rotate_api_key s u p k).2 = s) ∧
    ((delete_account s u p).1 = .error e2 → (delete_account s u p).2 = s) := by
  constructor
  · intro h
    rcases hf : findUser s u with _ | r
    · simp [rotate_api_key, hf]
    · by_cases hpw : checkpw p r.password = true
      · simp [rotate_api_key, hf, hpw] at h
      · simp [rotate_api_key, hf, hpw]
  · intro h
    rcases hf : findUser s u with _ | r
    · simp [delete_account, hf]
    · by_cases hpw : checkpw p r.password = true
      · simp [delete_account, hf, hpw] at h
      · simp [delete_account, hf, hpw]

/-- Witness for C9: a failing rotation and a failing deletion against a
one-user store (wrong password) leave the store untouched. -/
theorem failure_leaves_store_unchanged_witness :
    (rotate_api_key [⟨"alice", ⟨"s1", "pw1"⟩, "k0"⟩] "alice" "wrong" "k1").2 =
      [⟨"alice", ⟨"s1", "pw1"⟩, "k0"⟩] ∧
    (delete_account [⟨"alice", ⟨"s1", "pw1"⟩, "k0"⟩] "alice" "wrong").2 =
      [⟨"alice", ⟨"s1", "pw1"⟩, "k0"⟩] :=
  ⟨(failure_leaves_store_unchanged [⟨"alice", ⟨"s1", "pw1"⟩, "k0"⟩]
      "alice" "wrong" "k1" ⟨403, "Invalid username or password"⟩
      ⟨403, "Invalid username or password"⟩).1 rfl,
    (failure_leaves_store_unchanged [⟨"alice", ⟨"s1", "pw1"⟩, "k0"⟩]
      "alice" "wrong" "k1" ⟨403, "Invalid username or password"⟩
      ⟨403, "Invalid username or password"⟩).2 rfl⟩

end KosmosX
